import Mathlib

/-!
Verification development for the side-scrolling game simulation core
(`FlappyBird` class).  The JavaScript source is shallowly embedded:

* JS numbers are modelled as rationals (`ℚ`); the claims under study are
  order/equality facts for which exact arithmetic is adequate.
* The per-instance mutable fields of the `FlappyBird` object form the
  `Game` structure; every method becomes a `Game → Game` function.
* `Math.random()` is modelled as a deterministic oracle `rand : ℕ → ℚ`
  indexed by a counter `randIdx`; every call consumes one draw.
* `Array.prototype.forEach` combined with `splice(index, 1)` inside the
  callback is modelled index-faithfully: the iteration count is the
  length captured at loop entry, each step visits the current element at
  index `k` when one exists, and a removal shifts later elements down so
  the element that moves into the just-visited slot is skipped.
* DOM access, canvas rendering, audio, `alert`, achievements and the
  UI-refresh calls are external collaborators with no feedback into the
  simulation state and are omitted; `localStorage` for the best score is
  kept (field `storage`) because the persistence claims depend on it.
-/

attribute [local semireducible] Rat.mul Rat.add Rat.sub Rat.inv Rat.ofScientific

namespace FlappyBird

/-- The `gameState` string field: 'start', 'playing', 'paused', 'gameOver'. -/
inductive GameState
| start
| playing
| paused
| gameOver
deriving DecidableEq, Repr

/-- Power-up kinds: the `types` array in `createPowerUp`. -/
inductive PowerKind
| shield
| slowTime
| doublePoints
deriving DecidableEq, Repr

/-- A JavaScript value as far as the best-score field needs: the field holds
either a number or the raw string returned by `localStorage.getItem`. -/
inductive JSVal
| num (q : ℚ)
| str (s : String)
deriving DecidableEq, Repr

/-- One decimal digit of a character, if any. -/
def charDigit (c : Char) : Option ℕ :=
  if ('0' ≤ c ∧ c ≤ '9') then some (c.toNat - '0'.toNat) else none

/-- Value of a nonempty all-digit character list, read left to right. -/
def digitsToNat : List Char → Option ℕ
| [] => none
| [c] => charDigit c
| c :: cs =>
    match charDigit c, digitsToNat cs with
    | some d, some n => some (d * 10 ^ cs.length + n)
    | _, _ => none

/-- Fragment of the JavaScript ToNumber conversion on strings, covering the
numerals this program reads and writes: optional surrounding blanks, an
optional sign, then `digits`, `digits.digits`, `digits.` or `.digits`.
Strings outside this fragment (the malformed case of the persistence
claims) convert to `none`, standing for NaN. A blank-only string is 0. -/
def jsStrToNumber (s : String) : Option ℚ :=
  let cs := ((s.data.dropWhile (fun c => c = ' ')).reverse.dropWhile
      (fun c => c = ' ')).reverse
  match cs with
  | [] => some 0
  | _ =>
    let signed : ℚ × List Char :=
      match cs with
      | '-' :: rest => (-1, rest)
      | '+' :: rest => (1, rest)
      | other => (1, other)
    let intPart := signed.2.takeWhile (fun c => c ≠ '.')
    let rest := signed.2.dropWhile (fun c => c ≠ '.')
    match rest with
    | [] => (digitsToNat intPart).map (fun n => signed.1 * n)
    | '.' :: frac =>
      match intPart, frac with
      | [], [] => none
      | [], _ =>
          (digitsToNat frac).map
            (fun f => signed.1 * ((f : ℚ) / 10 ^ frac.length))
      | _, [] => (digitsToNat intPart).map (fun n => signed.1 * n)
      | _, _ =>
          match digitsToNat intPart, digitsToNat frac with
          | some n, some f =>
              some (signed.1 * ((n : ℚ) + (f : ℚ) / 10 ^ frac.length))
          | _, _ => none
    | _ => none

/-- JS ToNumber on the values the best-score field can hold. -/
def jsToNumber : JSVal → Option ℚ
| JSVal.num q => some q
| JSVal.str s => jsStrToNumber s

/-- The comparison `this.score > this.bestScore`: numeric coercion of the
best-score value; any comparison against NaN is false. -/
def scoreExceedsBest (score : ℕ) (best : JSVal) : Bool :=
  match jsToNumber best with
  | none => false
  | some q => decide ((score : ℚ) > q)

/-- The expression `localStorage.getItem('flappyBirdBestScore') || 0`:
a missing key yields `null` and the empty string is falsy, both giving the
number 0; any other string is kept as is. -/
def jsOrZero (stored : Option String) : JSVal :=
  match stored with
  | none => JSVal.num 0
  | some s => if s = "" then JSVal.num 0 else JSVal.str s

/-- An entry of `bird.trail` pushed by `flap`. -/
structure TrailDot where
  x : ℚ
  y : ℚ
  life : ℤ
deriving DecidableEq, Repr

/-- The `bird` object. -/
structure Bird where
  x : ℚ
  y : ℚ
  width : ℚ
  height : ℚ
  velocity : ℚ
  gravity : ℚ
  jumpPower : ℚ
  rotation : ℚ
  trail : List TrailDot
deriving DecidableEq, Repr

/-- A pipe pair: horizontal position, gap-top position `y`, scored flag. -/
structure Pipe where
  x : ℚ
  y : ℚ
  scored : Bool
deriving DecidableEq, Repr

/-- A power-up pickup as pushed by `createPowerUp`. The `duration` field is
written as 300 and, as in the source, never read anywhere. -/
structure PowerUp where
  x : ℚ
  y : ℚ
  kind : PowerKind
  duration : ℕ
  collected : Bool
deriving DecidableEq, Repr

/-- A particle as pushed by `createParticles`. -/
structure Particle where
  x : ℚ
  y : ℚ
  vx : ℚ
  vy : ℚ
  life : ℤ
  maxLife : ℤ
  color : String
deriving DecidableEq, Repr

/-- A background cloud. -/
structure Cloud where
  x : ℚ
  y : ℚ
  width : ℚ
  height : ℚ
  speed : ℚ
deriving DecidableEq, Repr

/-- The mutable per-instance state of the `FlappyBird` class, restricted to
the simulation fields (rendering and audio handles omitted). `storage` is
the current `localStorage` value under `'flappyBirdBestScore'`. -/
structure Game where
  gameState : GameState
  score : ℕ
  bestScore : JSVal
  storage : Option String
  isPaused : Bool
  difficulty : ℕ
  bird : Bird
  pipes : List Pipe
  pipeWidth : ℚ
  pipeGap : ℚ
  pipeSpeed : ℚ
  powerUps : List PowerUp
  activePowerUps : List PowerKind
  particles : List Particle
  clouds : List Cloud
  canvasW : ℚ
  canvasH : ℚ
  groundY : ℚ
  groundX : ℚ
  animationTime : ℕ
  rand : ℕ → ℚ
  randIdx : ℕ

/-- Consume one `Math.random()` draw from the oracle. -/
def Game.nextRand (g : Game) : ℚ × Game :=
  (g.rand g.randIdx, { g with randIdx := g.randIdx + 1 })

/-- `Set.prototype.add`: insertion-ordered, a present member is not
re-added. -/
def setAdd (l : List PowerKind) (k : PowerKind) : List PowerKind :=
  if k ∈ l then l else l ++ [k]

/-- The constructor of `FlappyBird`, before `initializeClouds` runs: field
initialisation from the stored best score, the canvas dimensions of the
host page, and the random oracle. `groundY = canvas.height - 112`. -/
def initGame (stored : Option String) (canvasW canvasH : ℚ)
    (rand : ℕ → ℚ) : Game :=
  { gameState := GameState.start
    score := 0
    bestScore := jsOrZero stored
    storage := stored
    isPaused := false
    difficulty := 1
    bird :=
      { x := 80, y := 300, width := 34, height := 24, velocity := 0,
        gravity := 3/5, jumpPower := -12, rotation := 0, trail := [] }
    pipes := []
    pipeWidth := 52
    pipeGap := 140
    pipeSpeed := 2
    powerUps := []
    activePowerUps := []
    particles := []
    clouds := []
    canvasW := canvasW
    canvasH := canvasH
    groundY := canvasH - 112
    groundX := 0
    animationTime := 0
    rand := rand
    randIdx := 0 }

/-- One iteration of the loop body of `initializeClouds`: push a cloud with
five random draws, in source order. -/
def initCloud (g : Game) : Game :=
  let (r1, g1) := g.nextRand
  let (r2, g2) := g1.nextRand
  let (r3, g3) := g2.nextRand
  let (r4, g4) := g3.nextRand
  let (r5, g5) := g4.nextRand
  { g5 with clouds := g5.clouds ++
      [{ x := r1 * g5.canvasW, y := r2 * 200 + 50, width := 60 + r3 * 40,
         height := 30 + r4 * 20, speed := 1/5 + r5 * (3/10) }] }

/-- `initializeClouds`: three clouds. -/
def initializeClouds (g : Game) : Game :=
  initCloud (initCloud (initCloud g))

/-- `createParticles`: the loop pushes `n` particles, each drawing two
randoms (vx then vy), with life 30. The source always calls it with 10. -/
def createParticlesN : ℕ → ℚ → ℚ → String → Game → Game
| 0, _, _, _, g => g
| Nat.succ n, x, y, c, g =>
    let (r1, g1) := g.nextRand
    let (r2, g2) := g1.nextRand
    createParticlesN n x y c
      { g2 with particles := g2.particles ++
          [{ x := x, y := y, vx := (r1 - 1/2) * 8, vy := (r2 - 1/2) * 8,
             life := 30, maxLife := 30, color := c }] }

/-- `createParticles(x, y, color)`. -/
def createParticles (x y : ℚ) (c : String) (g : Game) : Game :=
  createParticlesN 10 x y c g

/-- The `flap()` method. Note: it has no state guard of its own; it sets
the velocity to the jump impulse, pushes a trail dot and emits particles
unconditionally. The sound call is external and omitted. -/
def flap (g : Game) : Game :=
  let b := g.bird
  let b1 := { b with velocity := b.jumpPower,
                     trail := b.trail ++
                       [{ x := b.x + b.width / 2, y := b.y + b.height / 2,
                          life := 10 }] }
  createParticles b1.x b1.y "#FFD700" { g with bird := b1 }

/-- The guard wrapped around `flap` at the command surface: both the Space
keydown listener and the canvas click listener in `setupEventListeners`
invoke `flap()` only while `gameState === 'playing'`. -/
def flapInput (g : Game) : Game :=
  if g.gameState = GameState.playing then flap g else g

/-- `startGame()`: enter Playing and reset score, bird position/velocity
and the pipe list. Nothing else is reset. UI and sound calls omitted. -/
def startGame (g : Game) : Game :=
  { g with gameState := GameState.playing
           score := 0
           bird := { g.bird with y := 300, velocity := 0 }
           pipes := [] }

/-- `restartGame()` simply calls `startGame()`. -/
def restartGame (g : Game) : Game :=
  startGame g

/-- `togglePause()`. -/
def togglePause (g : Game) : Game :=
  if g.gameState = GameState.playing then
    { g with gameState := GameState.paused, isPaused := true }
  else if g.gameState = GameState.paused then
    { g with gameState := GameState.playing, isPaused := false }
  else g

/-- `gameOver()`: set the terminal state; write the best score back to
storage only when the current score exceeds it (JS `>` against the stored
value). Achievements, UI and sound are external and omitted. -/
def gameOver (g : Game) : Game :=
  let g1 := { g with gameState := GameState.gameOver }
  if scoreExceedsBest g1.score g1.bestScore then
    { g1 with bestScore := JSVal.num g1.score,
              storage := some (toString g1.score) }
  else g1

/-- `updateBird()`: guard on Playing; gravity integration; rotation clamp;
ground check (fatal) followed unconditionally by the ceiling clamp. -/
def updateBird (g : Game) : Game :=
  if g.gameState ≠ GameState.playing then g
  else
    let b := g.bird
    let v := b.velocity + b.gravity
    let y := b.y + v
    let rot := min (max (v * 3) (-30)) 90
    let g1 := { g with bird := { b with velocity := v, y := y, rotation := rot } }
    let g2 := if y + b.height > g1.groundY then gameOver g1 else g1
    if g2.bird.y < 0 then
      { g2 with bird := { g2.bird with y := 0, velocity := 0 } }
    else g2

/-- The vertical gap-top sample of a freshly spawned pipe:
`Math.random() * (groundY - pipeGap - 200) + 100`. -/
def spawnPipeY (groundY gap r : ℚ) : ℚ :=
  r * (groundY - gap - 200) + 100

/-- The pipe object pushed on spawn, for random draw `r`. -/
def spawnedPipe (g : Game) (r : ℚ) : Pipe :=
  { x := g.canvasW, y := spawnPipeY g.groundY g.pipeGap r, scored := false }

/-- The in-place transformation of one visited pipe during the pipe loop:
move left by the speed, then set `scored` when the moved right edge is
strictly left of the bird. -/
def stepPipe (sp w bx : ℚ) (p : Pipe) : Pipe :=
  if p.scored = false ∧ p.x - sp + w < bx then
    { x := p.x - sp, y := p.y, scored := true }
  else
    { x := p.x - sp, y := p.y, scored := p.scored }

/-- `checkPipeCollision(pipe)`: horizontal overlap, then outside-the-gap. -/
def checkPipeCollision (g : Game) (p : Pipe) : Bool :=
  decide ((g.bird.x < p.x + g.pipeWidth ∧ g.bird.x + g.bird.width > p.x) ∧
    (g.bird.y < p.y ∨ g.bird.y + g.bird.height > p.y + g.pipeGap))

/-- Score increment on clearance: 2 with DoublePoints active, else 1. -/
def scorePoints (g : Game) : ℕ :=
  if PowerKind.doublePoints ∈ g.activePowerUps then 2 else 1

/-- One callback invocation of the `forEach` in `updatePipes`, at index
`k`: move, score (with points, sound omitted, green particles), off-screen
splice, then the collision check on the same (possibly spliced) pipe. -/
def pipeBody (g : Game) (k : ℕ) : Game :=
  match g.pipes[k]? with
  | none => g
  | some p =>
    let p2 := stepPipe g.pipeSpeed g.pipeWidth g.bird.x p
    let g2 :=
      if p.scored = false ∧ p.x - g.pipeSpeed + g.pipeWidth < g.bird.x then
        createParticles (p2.x + g.pipeWidth / 2) (p2.y + g.pipeGap / 2)
          "#00FF00"
          { g with pipes := g.pipes.set k p2,
                   score := g.score + scorePoints g }
      else { g with pipes := g.pipes.set k p2 }
    let g3 :=
      if p2.x + g.pipeWidth < 0 then
        { g2 with pipes := g2.pipes.eraseIdx k }
      else g2
    if checkPipeCollision g3 p2 then gameOver g3 else g3

/-- The `forEach` over pipes: `n` remaining iterations, current index `k`. -/
def pipesLoopAux : ℕ → ℕ → Game → Game
| 0, _, g => g
| Nat.succ n, k, g => pipesLoopAux n (k + 1) (pipeBody g k)

/-- `updatePipes()`: guard on Playing; spawn a pipe at the right edge when
none exists or the last one is left of `canvas.width - 200`; then the
move/score/retire/collide loop. -/
def updatePipes (g : Game) : Game :=
  if g.gameState ≠ GameState.playing then g
  else
    let g1 :=
      if (match g.pipes.getLast? with
          | none => true
          | some p => decide (p.x < g.canvasW - 200) : Bool) then
        let rg := g.nextRand
        { rg.2 with pipes := rg.2.pipes ++ [spawnedPipe rg.2 rg.1] }
      else g
    pipesLoopAux g1.pipes.length 0 g1

/-- `createPowerUp(x, y)`: one random draw selects the kind by thirds,
as `types[Math.floor(Math.random() * 3)]` does on a draw in `[0, 1)`. -/
def createPowerUp (x y : ℚ) (g : Game) : Game :=
  let (r, g1) := g.nextRand
  let kind :=
    if r * 3 < 1 then PowerKind.shield
    else if r * 3 < 2 then PowerKind.slowTime
    else PowerKind.doublePoints
  { g1 with powerUps := g1.powerUps ++
      [{ x := x, y := y, kind := kind, duration := 300, collected := false }] }

/-- One callback invocation of the `forEach` in `updatePowerUps`: move,
collect on overlap (adding the kind to the active set, particles), then
off-screen splice. -/
def powerUpBody (g : Game) (k : ℕ) : Game :=
  match g.powerUps[k]? with
  | none => g
  | some q =>
    let q1 := { q with x := q.x - g.pipeSpeed }
    let g1 := { g with powerUps := g.powerUps.set k q1 }
    let picked : Prop := q1.collected = false ∧
      g1.bird.x < q1.x + 20 ∧ g1.bird.x + g1.bird.width > q1.x ∧
      g1.bird.y < q1.y + 20 ∧ g1.bird.y + g1.bird.height > q1.y
    let g2 :=
      if picked then
        let q2 := { q1 with collected := true }
        createParticles q2.x q2.y "#FFD700"
          { g1 with powerUps := g1.powerUps.set k q2,
                    activePowerUps := setAdd g1.activePowerUps q2.kind }
      else g1
    if q1.x + 20 < 0 then
      { g2 with powerUps := g2.powerUps.eraseIdx k }
    else g2

/-- The `forEach` over power-ups. -/
def powerUpsLoopAux : ℕ → ℕ → Game → Game
| 0, _, g => g
| Nat.succ n, k, g => powerUpsLoopAux n (k + 1) (powerUpBody g k)

/-- `updatePowerUps()`: guard on Playing; the move/collect/retire loop;
then the probabilistic spawn (the random draw is consumed first, the spawn
happens with probability 0.002 when a pipe exists). -/
def updatePowerUps (g : Game) : Game :=
  if g.gameState ≠ GameState.playing then g
  else
    let g1 := powerUpsLoopAux g.powerUps.length 0 g
    let rg := g1.nextRand
    if rg.1 < 1/500 then
      match rg.2.pipes.getLast? with
      | none => rg.2
      | some lastPipe =>
          createPowerUp (lastPipe.x + 100) (lastPipe.y + rg.2.pipeGap / 2) rg.2
    else rg.2

/-- One callback invocation of the `forEach` in `updateParticles`:
ballistic move, gravity on vy, life decrement, splice at zero life. -/
def particleBody (g : Game) (k : ℕ) : Game :=
  match g.particles[k]? with
  | none => g
  | some p =>
    let p1 := { p with x := p.x + p.vx, y := p.y + p.vy,
                       vy := p.vy + 1/5, life := p.life - 1 }
    let g1 := { g with particles := g.particles.set k p1 }
    if p1.life ≤ 0 then
      { g1 with particles := g1.particles.eraseIdx k }
    else g1

/-- The `forEach` over particles. Note: `updateParticles` has no Playing
guard in the source. -/
def particlesLoopAux : ℕ → ℕ → Game → Game
| 0, _, g => g
| Nat.succ n, k, g => particlesLoopAux n (k + 1) (particleBody g k)

/-- `updateParticles()`. -/
def updateParticles (g : Game) : Game :=
  particlesLoopAux g.particles.length 0 g

/-- `updateDifficulty()`: recompute `floor(score / 10) + 1`; only when the
new level is strictly larger, adopt it and rederive speed (clamped above
by 5) and gap (clamped below by 100). It never lowers the level. -/
def updateDifficulty (g : Game) : Game :=
  let newD := g.score / 10 + 1
  if newD > g.difficulty then
    { g with difficulty := newD,
             pipeSpeed := min (2 + (newD : ℚ) * (1/2)) 5,
             pipeGap := max (140 - (newD : ℚ) * 5) 100 }
  else g

/-- One callback invocation of the `forEach` in `updateClouds`: drift left
and wrap to the right edge with a fresh random height. -/
def cloudBody (g : Game) (k : ℕ) : Game :=
  match g.clouds[k]? with
  | none => g
  | some c =>
    let c1 := { c with x := c.x - c.speed }
    if c1.x + c1.width < 0 then
      let rg := g.nextRand
      let c2 := { c1 with x := rg.2.canvasW, y := rg.1 * 200 + 50 }
      { rg.2 with clouds := rg.2.clouds.set k c2 }
    else { g with clouds := g.clouds.set k c1 }

/-- The `forEach` over clouds (no splicing here). -/
def cloudsLoopAux : ℕ → ℕ → Game → Game
| 0, _, g => g
| Nat.succ n, k, g => cloudsLoopAux n (k + 1) (cloudBody g k)

/-- `updateClouds()` (no Playing guard in the source). -/
def updateClouds (g : Game) : Game :=
  cloudsLoopAux g.clouds.length 0 g

/-- `updateGround()`: scroll the ground texture while Playing. -/
def updateGround (g : Game) : Game :=
  if g.gameState = GameState.playing then
    let gx := g.groundX - g.pipeSpeed
    { g with groundX := if gx ≤ -50 then 0 else gx }
  else g

/-- `update()`: the per-tick pipeline, in source order. -/
def update (g : Game) : Game :=
  updateDifficulty (updateParticles (updatePowerUps (updateGround
    (updateClouds (updatePipes (updateBird g))))))

/-- One `gameLoop` iteration: simulate unless Paused, then render
(external, omitted) and advance the animation clock. -/
def gameLoopStep (g : Game) : Game :=
  let g1 := if g.gameState ≠ GameState.paused then update g else g
  { g1 with animationTime := g1.animationTime + 1 }

/-- The pure effect of the pipe `forEach` on the pipe list alone, with the
JS splice semantics: a removed head causes the element sliding into its
index to be skipped by the rest of the iteration. `n` is the iteration
budget captured at loop entry. -/
def runPipesFuel (sp w bx : ℚ) : ℕ → List Pipe → List Pipe
| 0, l => l
| Nat.succ _, [] => []
| Nat.succ n, p :: rest =>
    let p2 := stepPipe sp w bx p
    if p2.x + w < 0 then
      match rest with
      | [] => []
      | q :: rest2 => q :: runPipesFuel sp w bx n rest2
    else p2 :: runPipesFuel sp w bx n rest

/-- Every unretired, unscored pipe still has its right edge at or right of
the bird: the well-formedness invariant behind exactly-once scoring. -/
def PipesInv (g : Game) : Prop :=
  ∀ p ∈ g.pipes, p.scored = false → g.bird.x ≤ p.x + g.pipeWidth

lemma gameOver_shape (g : Game) : ∃ bs st,
    gameOver g =
      { g with gameState := GameState.gameOver, bestScore := bs,
               storage := st } := by
  unfold gameOver
  by_cases h : scoreExceedsBest g.score g.bestScore = true
  · exact ⟨JSVal.num g.score, some (toString g.score), by simp [h]⟩
  · exact ⟨g.bestScore, g.storage, by simp [h]⟩

lemma gameOver_pipes (g : Game) : (gameOver g).pipes = g.pipes := by
  obtain ⟨bs, st, h⟩ := gameOver_shape g
  rw [h]

lemma gameOver_score (g : Game) : (gameOver g).score = g.score := by
  obtain ⟨bs, st, h⟩ := gameOver_shape g
  rw [h]

lemma gameOver_bird (g : Game) : (gameOver g).bird = g.bird := by
  obtain ⟨bs, st, h⟩ := gameOver_shape g
  rw [h]

lemma gameOver_pipeSpeed (g : Game) : (gameOver g).pipeSpeed = g.pipeSpeed := by
  obtain ⟨bs, st, h⟩ := gameOver_shape g
  rw [h]

lemma gameOver_pipeWidth (g : Game) : (gameOver g).pipeWidth = g.pipeWidth := by
  obtain ⟨bs, st, h⟩ := gameOver_shape g
  rw [h]

lemma gameOver_powerUps (g : Game) : (gameOver g).powerUps = g.powerUps := by
  obtain ⟨bs, st, h⟩ := gameOver_shape g
  rw [h]

lemma gameOver_activePowerUps (g : Game) :
    (gameOver g).activePowerUps = g.activePowerUps := by
  obtain ⟨bs, st, h⟩ := gameOver_shape g
  rw [h]

lemma gameOver_gameState (g : Game) :
    (gameOver g).gameState = GameState.gameOver := by
  obtain ⟨bs, st, h⟩ := gameOver_shape g
  rw [h]

lemma createParticlesN_shape : ∀ (n : ℕ) (x y : ℚ) (c : String) (g : Game),
    ∃ ps i, createParticlesN n x y c g =
      { g with particles := ps, randIdx := i } := by
  intro n
  induction n with
  | zero =>
      intro x y c g
      exact ⟨g.particles, g.randIdx, rfl⟩
  | succ n ih =>
      intro x y c g
      simp only [createParticlesN, Game.nextRand]
      obtain ⟨ps, i, h⟩ := ih x y c
        { g with randIdx := g.randIdx + 1 + 1,
                 particles := g.particles ++
                   [{ x := x, y := y, vx := (g.rand g.randIdx - 1/2) * 8,
                      vy := (g.rand (g.randIdx + 1) - 1/2) * 8,
                      life := 30, maxLife := 30, color := c }] }
      rw [h]
      exact ⟨ps, i, rfl⟩

lemma createParticles_shape (x y : ℚ) (c : String) (g : Game) :
    ∃ ps i, createParticles x y c g =
      { g with particles := ps, randIdx := i } :=
  createParticlesN_shape 10 x y c g

lemma createParticles_pipes (x y : ℚ) (c : String) (g : Game) :
    (createParticles x y c g).pipes = g.pipes := by
  obtain ⟨ps, i, h⟩ := createParticles_shape x y c g
  rw [h]

lemma createParticles_score (x y : ℚ) (c : String) (g : Game) :
    (createParticles x y c g).score = g.score := by
  obtain ⟨ps, i, h⟩ := createParticles_shape x y c g
  rw [h]

lemma createParticles_bird (x y : ℚ) (c : String) (g : Game) :
    (createParticles x y c g).bird = g.bird := by
  obtain ⟨ps, i, h⟩ := createParticles_shape x y c g
  rw [h]

lemma createParticles_pipeSpeed (x y : ℚ) (c : String) (g : Game) :
    (createParticles x y c g).pipeSpeed = g.pipeSpeed := by
  obtain ⟨ps, i, h⟩ := createParticles_shape x y c g
  rw [h]

lemma createParticles_pipeWidth (x y : ℚ) (c : String) (g : Game) :
    (createParticles x y c g).pipeWidth = g.pipeWidth := by
  obtain ⟨ps, i, h⟩ := createParticles_shape x y c g
  rw [h]

lemma createParticles_powerUps (x y : ℚ) (c : String) (g : Game) :
    (createParticles x y c g).powerUps = g.powerUps := by
  obtain ⟨ps, i, h⟩ := createParticles_shape x y c g
  rw [h]

lemma createParticles_activePowerUps (x y : ℚ) (c : String) (g : Game) :
    (createParticles x y c g).activePowerUps = g.activePowerUps := by
  obtain ⟨ps, i, h⟩ := createParticles_shape x y c g
  rw [h]

lemma createParticles_gameState (x y : ℚ) (c : String) (g : Game) :
    (createParticles x y c g).gameState = g.gameState := by
  obtain ⟨ps, i, h⟩ := createParticles_shape x y c g
  rw [h]

lemma pipeBody_none (g : Game) (k : ℕ) (h : g.pipes[k]? = none) :
    pipeBody g k = g := by
  simp only [pipeBody, h]

lemma pipeBody_some_pipes (g : Game) (k : ℕ) (p : Pipe)
    (h : g.pipes[k]? = some p) :
    (pipeBody g k).pipes =
      if (stepPipe g.pipeSpeed g.pipeWidth g.bird.x p).x + g.pipeWidth < 0 then
        (g.pipes.set k (stepPipe g.pipeSpeed g.pipeWidth g.bird.x p)).eraseIdx k
      else g.pipes.set k (stepPipe g.pipeSpeed g.pipeWidth g.bird.x p) := by
  simp only [pipeBody, h]
  simp [apply_ite Game.pipes, gameOver_pipes, createParticles_pipes]

lemma pipeBody_some_score (g : Game) (k : ℕ) (p : Pipe)
    (h : g.pipes[k]? = some p) :
    (pipeBody g k).score =
      if p.scored = false ∧ p.x - g.pipeSpeed + g.pipeWidth < g.bird.x then
        g.score + scorePoints g
      else g.score := by
  simp only [pipeBody, h]
  simp [apply_ite Game.score, gameOver_score, createParticles_score]

lemma pipeBody_pipeSpeed (g : Game) (k : ℕ) :
    (pipeBody g k).pipeSpeed = g.pipeSpeed := by
  unfold pipeBody
  cases h : g.pipes[k]? with
  | none => rfl
  | some p =>
      simp [apply_ite Game.pipeSpeed, gameOver_pipeSpeed,
        createParticles_pipeSpeed]

lemma pipeBody_pipeWidth (g : Game) (k : ℕ) :
    (pipeBody g k).pipeWidth = g.pipeWidth := by
  unfold pipeBody
  cases h : g.pipes[k]? with
  | none => rfl
  | some p =>
      simp [apply_ite Game.pipeWidth, gameOver_pipeWidth,
        createParticles_pipeWidth]

lemma pipeBody_bird (g : Game) (k : ℕ) : (pipeBody g k).bird = g.bird := by
  unfold pipeBody
  cases h : g.pipes[k]? with
  | none => rfl
  | some p =>
      simp [apply_ite Game.bird, gameOver_bird, createParticles_bird]

lemma pipeBody_powerUps (g : Game) (k : ℕ) :
    (pipeBody g k).powerUps = g.powerUps := by
  unfold pipeBody
  cases h : g.pipes[k]? with
  | none => rfl
  | some p =>
      simp [apply_ite Game.powerUps, gameOver_powerUps,
        createParticles_powerUps]

lemma pipeBody_activePowerUps (g : Game) (k : ℕ) :
    (pipeBody g k).activePowerUps = g.activePowerUps := by
  unfold pipeBody
  cases h : g.pipes[k]? with
  | none => rfl
  | some p =>
      simp [apply_ite Game.activePowerUps, gameOver_activePowerUps,
        createParticles_activePowerUps]

lemma set_take_succ {α : Type} (a : α) :
    ∀ (k : ℕ) (l : List α), k < l.length →
      (l.set k a).take (k + 1) = l.take k ++ [a] := by
  intro k
  induction k with
  | zero =>
      intro l h
      cases l with
      | nil => simp at h
      | cons x xs => rfl
  | succ k ih =>
      intro l h
      cases l with
      | nil => simp at h
      | cons x xs =>
          simp only [List.set_cons_succ, List.take_succ_cons, List.cons_append]
          exact congrArg (List.cons x) (ih xs (by simpa using h))

lemma set_drop_succ {α : Type} (a : α) (k : ℕ) (l : List α) :
    (l.set k a).drop (k + 1) = l.drop (k + 1) := by
  rw [List.drop_set]
  simp

lemma set_take_self {α : Type} (a : α) :
    ∀ (k : ℕ) (l : List α), (l.set k a).take k = l.take k := by
  intro k
  induction k with
  | zero => intro l; simp
  | succ k ih =>
      intro l
      cases l with
      | nil => simp
      | cons x xs =>
          simp only [List.set_cons_succ, List.take_succ_cons]
          exact congrArg (List.cons x) (ih xs)

lemma set_eraseIdx_self {α : Type} (a : α) (k : ℕ) (l : List α) :
    (l.set k a).eraseIdx k = l.take k ++ l.drop (k + 1) := by
  rw [List.eraseIdx_eq_take_drop_succ, set_drop_succ, set_take_self]

lemma runPipesFuel_nil (sp w bx : ℚ) (n : ℕ) :
    runPipesFuel sp w bx n [] = [] := by
  cases n <;> rfl

lemma pipesLoopAux_pipes :
    ∀ (n k : ℕ) (g : Game),
      (pipesLoopAux n k g).pipes =
        g.pipes.take k ++
          runPipesFuel g.pipeSpeed g.pipeWidth g.bird.x n (g.pipes.drop k) := by
  intro n
  induction n with
  | zero =>
      intro k g
      simp only [pipesLoopAux, runPipesFuel, List.take_append_drop]
  | succ n ih =>
      intro k g
      rw [pipesLoopAux, ih (k + 1) (pipeBody g k), pipeBody_pipeSpeed,
        pipeBody_pipeWidth, pipeBody_bird]
      cases hk : g.pipes[k]? with
      | none =>
          rw [pipeBody_none g k hk]
          have hlen : g.pipes.length ≤ k := List.getElem?_eq_none_iff.mp hk
          have hlen1 : g.pipes.length ≤ k + 1 := le_trans hlen (Nat.le_succ k)
          rw [List.drop_eq_nil_of_le hlen, List.drop_eq_nil_of_le hlen1,
            runPipesFuel_nil, runPipesFuel_nil,
            List.take_of_length_le hlen, List.take_of_length_le hlen1]
      | some p =>
          have hklen : k < g.pipes.length := by
            rcases List.getElem?_eq_some_iff.mp hk with ⟨h1, _⟩
            exact h1
          have hgetk : g.pipes[k] = p := by
            rcases List.getElem?_eq_some_iff.mp hk with ⟨h1, h2⟩
            exact h2
          have hdropk : g.pipes.drop k = p :: g.pipes.drop (k + 1) := by
            rw [List.drop_eq_getElem_cons hklen, hgetk]
          have hlentake : (g.pipes.take k).length = k := by
            simp [List.length_take, Nat.min_eq_left (le_of_lt hklen)]
          rw [pipeBody_some_pipes g k p hk, hdropk]
          by_cases hrem :
              (stepPipe g.pipeSpeed g.pipeWidth g.bird.x p).x + g.pipeWidth < 0
          · rw [if_pos hrem]
            rw [set_eraseIdx_self]
            simp only [runPipesFuel, if_pos hrem]
            cases hdk : g.pipes.drop (k + 1) with
            | nil =>
                rw [List.append_nil]
                rw [List.take_of_length_le (by rw [hlentake]; exact Nat.le_succ k),
                  List.drop_eq_nil_of_le (by rw [hlentake]; exact Nat.le_succ k),
                  runPipesFuel_nil, List.append_nil]
            | cons q rest2 =>
                rw [List.take_append_eq_append_take,
                  List.drop_append_eq_append_drop, hlentake]
                rw [List.take_of_length_le (by rw [hlentake]; exact Nat.le_succ k),
                  List.drop_eq_nil_of_le (by rw [hlentake]; exact Nat.le_succ k)]
                simp [List.append_assoc]
          · rw [if_neg hrem]
            rw [set_take_succ _ k _ hklen, set_drop_succ]
            simp only [runPipesFuel, if_neg hrem]
            simp [List.append_assoc]

lemma cloudBody_shape (g : Game) (k : ℕ) :
    ∃ cl i, cloudBody g k = { g with clouds := cl, randIdx := i } := by
  unfold cloudBody
  cases h : g.clouds[k]? with
  | none => exact ⟨g.clouds, g.randIdx, rfl⟩
  | some c =>
      simp only [Game.nextRand]
      split
      · exact ⟨_, _, rfl⟩
      · exact ⟨_, g.randIdx, rfl⟩

lemma cloudsLoopAux_shape : ∀ (n k : ℕ) (g : Game),
    ∃ cl i, cloudsLoopAux n k g = { g with clouds := cl, randIdx := i } := by
  intro n
  induction n with
  | zero => intro k g; exact ⟨g.clouds, g.randIdx, rfl⟩
  | succ n ih =>
      intro k g
      rw [cloudsLoopAux]
      obtain ⟨cl0, i0, h0⟩ := cloudBody_shape g k
      obtain ⟨cl, i, h⟩ := ih (k + 1) (cloudBody g k)
      rw [h, h0]
      exact ⟨cl, i, rfl⟩

lemma updateClouds_shape (g : Game) :
    ∃ cl i, updateClouds g = { g with clouds := cl, randIdx := i } :=
  cloudsLoopAux_shape g.clouds.length 0 g

lemma updateClouds_gameState (g : Game) :
    (updateClouds g).gameState = g.gameState := by
  obtain ⟨cl, i, h⟩ := updateClouds_shape g
  rw [h]

lemma updateClouds_powerUps (g : Game) :
    (updateClouds g).powerUps = g.powerUps := by
  obtain ⟨cl, i, h⟩ := updateClouds_shape g
  rw [h]

lemma updateClouds_activePowerUps (g : Game) :
    (updateClouds g).activePowerUps = g.activePowerUps := by
  obtain ⟨cl, i, h⟩ := updateClouds_shape g
  rw [h]

lemma particleBody_shape (g : Game) (k : ℕ) :
    ∃ ps, particleBody g k = { g with particles := ps } := by
  unfold particleBody
  cases h : g.particles[k]? with
  | none => exact ⟨g.particles, rfl⟩
  | some p =>
      simp only
      split
      · exact ⟨_, rfl⟩
      · exact ⟨_, rfl⟩

lemma particlesLoopAux_shape : ∀ (n k : ℕ) (g : Game),
    ∃ ps, particlesLoopAux n k g = { g with particles := ps } := by
  intro n
  induction n with
  | zero => intro k g; exact ⟨g.particles, rfl⟩
  | succ n ih =>
      intro k g
      rw [particlesLoopAux]
      obtain ⟨ps0, h0⟩ := particleBody_shape g k
      obtain ⟨ps, h⟩ := ih (k + 1) (particleBody g k)
      rw [h, h0]
      exact ⟨ps, rfl⟩

lemma updateParticles_shape (g : Game) :
    ∃ ps, updateParticles g = { g with particles := ps } :=
  particlesLoopAux_shape g.particles.length 0 g

lemma updateParticles_powerUps (g : Game) :
    (updateParticles g).powerUps = g.powerUps := by
  obtain ⟨ps, h⟩ := updateParticles_shape g
  rw [h]

lemma updateParticles_activePowerUps (g : Game) :
    (updateParticles g).activePowerUps = g.activePowerUps := by
  obtain ⟨ps, h⟩ := updateParticles_shape g
  rw [h]

lemma updateGround_shape (g : Game) :
    ∃ gx, updateGround g = { g with groundX := gx } := by
  unfold updateGround
  split
  · exact ⟨_, rfl⟩
  · exact ⟨g.groundX, rfl⟩

lemma updateGround_gameState (g : Game) :
    (updateGround g).gameState = g.gameState := by
  obtain ⟨gx, h⟩ := updateGround_shape g
  rw [h]

lemma updateGround_powerUps (g : Game) :
    (updateGround g).powerUps = g.powerUps := by
  obtain ⟨gx, h⟩ := updateGround_shape g
  rw [h]

lemma updateGround_activePowerUps (g : Game) :
    (updateGround g).activePowerUps = g.activePowerUps := by
  obtain ⟨gx, h⟩ := updateGround_shape g
  rw [h]

lemma updateDifficulty_shape (g : Game) :
    ∃ d sp gp, updateDifficulty g =
      { g with difficulty := d, pipeSpeed := sp, pipeGap := gp } := by
  unfold updateDifficulty
  dsimp only
  split
  · exact ⟨_, _, _, rfl⟩
  · exact ⟨g.difficulty, g.pipeSpeed, g.pipeGap, rfl⟩

lemma updateDifficulty_powerUps (g : Game) :
    (updateDifficulty g).powerUps = g.powerUps := by
  obtain ⟨d, sp, gp, h⟩ := updateDifficulty_shape g
  rw [h]

lemma updateDifficulty_activePowerUps (g : Game) :
    (updateDifficulty g).activePowerUps = g.activePowerUps := by
  obtain ⟨d, sp, gp, h⟩ := updateDifficulty_shape g
  rw [h]

lemma updatePowerUps_not_playing (g : Game)
    (h : g.gameState ≠ GameState.playing) : updatePowerUps g = g := by
  unfold updatePowerUps
  rw [if_pos h]

lemma updateBird_powerUps (g : Game) :
    (updateBird g).powerUps = g.powerUps := by
  unfold updateBird
  by_cases h : g.gameState ≠ GameState.playing
  · rw [if_pos h]
  · rw [if_neg h]
    simp [apply_ite Game.powerUps, gameOver_powerUps]

lemma updateBird_activePowerUps (g : Game) :
    (updateBird g).activePowerUps = g.activePowerUps := by
  unfold updateBird
  by_cases h : g.gameState ≠ GameState.playing
  · rw [if_pos h]
  · rw [if_neg h]
    simp [apply_ite Game.activePowerUps, gameOver_activePowerUps]

lemma pipesLoopAux_powerUps : ∀ (n k : ℕ) (g : Game),
    (pipesLoopAux n k g).powerUps = g.powerUps := by
  intro n
  induction n with
  | zero => intro k g; rfl
  | succ n ih =>
      intro k g
      rw [pipesLoopAux, ih (k + 1) (pipeBody g k), pipeBody_powerUps]

lemma pipesLoopAux_activePowerUps : ∀ (n k : ℕ) (g : Game),
    (pipesLoopAux n k g).activePowerUps = g.activePowerUps := by
  intro n
  induction n with
  | zero => intro k g; rfl
  | succ n ih =>
      intro k g
      rw [pipesLoopAux, ih (k + 1) (pipeBody g k), pipeBody_activePowerUps]

lemma pipesLoopAux_bird : ∀ (n k : ℕ) (g : Game),
    (pipesLoopAux n k g).bird = g.bird := by
  intro n
  induction n with
  | zero => intro k g; rfl
  | succ n ih =>
      intro k g
      rw [pipesLoopAux, ih (k + 1) (pipeBody g k), pipeBody_bird]

lemma pipesLoopAux_pipeWidth : ∀ (n k : ℕ) (g : Game),
    (pipesLoopAux n k g).pipeWidth = g.pipeWidth := by
  intro n
  induction n with
  | zero => intro k g; rfl
  | succ n ih =>
      intro k g
      rw [pipesLoopAux, ih (k + 1) (pipeBody g k), pipeBody_pipeWidth]

lemma updatePipes_powerUps (g : Game) :
    (updatePipes g).powerUps = g.powerUps := by
  unfold updatePipes
  by_cases h : g.gameState ≠ GameState.playing
  · rw [if_pos h]
  · rw [if_neg h]
    split
    · rw [pipesLoopAux_powerUps]; rfl
    · rw [pipesLoopAux_powerUps]

lemma updatePipes_activePowerUps (g : Game) :
    (updatePipes g).activePowerUps = g.activePowerUps := by
  unfold updatePipes
  by_cases h : g.gameState ≠ GameState.playing
  · rw [if_pos h]
  · rw [if_neg h]
    split
    · rw [pipesLoopAux_activePowerUps]; rfl
    · rw [pipesLoopAux_activePowerUps]

lemma updatePipes_bird (g : Game) : (updatePipes g).bird = g.bird := by
  unfold updatePipes
  by_cases h : g.gameState ≠ GameState.playing
  · rw [if_pos h]
  · rw [if_neg h]
    split
    · rw [pipesLoopAux_bird]; rfl
    · rw [pipesLoopAux_bird]

lemma updatePipes_pipeWidth (g : Game) :
    (updatePipes g).pipeWidth = g.pipeWidth := by
  unfold updatePipes
  by_cases h : g.gameState ≠ GameState.playing
  · rw [if_pos h]
  · rw [if_neg h]
    split
    · rw [pipesLoopAux_pipeWidth]; rfl
    · rw [pipesLoopAux_pipeWidth]

lemma updatePipes_pipes (g : Game) (hg : g.gameState = GameState.playing) :
    (∃ r, (updatePipes g).pipes =
        runPipesFuel g.pipeSpeed g.pipeWidth g.bird.x (g.pipes.length + 1)
          (g.pipes ++ [spawnedPipe g r])) ∨
      (updatePipes g).pipes =
        runPipesFuel g.pipeSpeed g.pipeWidth g.bird.x g.pipes.length
          g.pipes := by
  unfold updatePipes
  rw [if_neg (by simp [hg])]
  split
  · left
    refine ⟨g.rand g.randIdx, ?_⟩
    rw [pipesLoopAux_pipes]
    simp only [Game.nextRand, List.length_append, List.length_cons,
      List.length_nil, List.take_zero, List.drop_zero, List.nil_append]
    rfl
  · right
    rw [pipesLoopAux_pipes]
    rfl

lemma updatePipes_not_playing (g : Game)
    (hg : g.gameState ≠ GameState.playing) : updatePipes g = g := by
  unfold updatePipes
  rw [if_pos hg]

lemma runPipesFuel_mem (sp w bx : ℚ) :
    ∀ (n : ℕ) (l : List Pipe) (q : Pipe), q ∈ runPipesFuel sp w bx n l →
      ∃ p ∈ l, q = stepPipe sp w bx p ∨ q = p := by
  intro n
  induction n with
  | zero =>
      intro l q hq
      exact ⟨q, hq, Or.inr rfl⟩
  | succ n ih =>
      intro l q hq
      cases l with
      | nil => simp [runPipesFuel] at hq
      | cons p rest =>
          simp only [runPipesFuel] at hq
          by_cases hrem : (stepPipe sp w bx p).x + w < 0
          · rw [if_pos hrem] at hq
            cases rest with
            | nil => simp at hq
            | cons q2 rest2 =>
                cases List.mem_cons.mp hq with
                | inl h => exact ⟨q2, by simp, Or.inr h⟩
                | inr h =>
                    obtain ⟨p3, hp3, hrel⟩ := ih rest2 q h
                    exact ⟨p3, by simp [hp3], hrel⟩
          · rw [if_neg hrem] at hq
            cases List.mem_cons.mp hq with
            | inl h => exact ⟨p, List.mem_cons_self p rest, Or.inl h⟩
            | inr h =>
                obtain ⟨p3, hp3, hrel⟩ := ih rest q h
                exact ⟨p3, List.mem_cons_of_mem p hp3, hrel⟩

lemma stepPipe_spec (sp w bx : ℚ) (p : Pipe) :
    ((stepPipe sp w bx p).scored = true ↔
      (p.scored = true ∨ p.x - sp + w < bx)) ∧
    (stepPipe sp w bx p).x = p.x - sp ∧
    (stepPipe sp w bx p).y = p.y := by
  unfold stepPipe
  by_cases hc : p.scored = false ∧ p.x - sp + w < bx
  · rw [if_pos hc]
    simp [hc.2]
  · rw [if_neg hc]
    cases hs : p.scored
    · simp only [hs] at hc ⊢
      simp only [not_and, forall_const] at hc
      simp [hc]
    · simp

lemma stepPipe_unscored (sp w bx : ℚ) (p : Pipe)
    (h : (stepPipe sp w bx p).scored = false) :
    bx ≤ (stepPipe sp w bx p).x + w := by
  unfold stepPipe at h ⊢
  by_cases hc : p.scored = false ∧ p.x - sp + w < bx
  · rw [if_pos hc] at h
    simp at h
  · rw [if_neg hc] at h ⊢
    simp only at h ⊢
    have hns : p.scored = false := h
    have hnlt : ¬p.x - sp + w < bx := fun hlt => hc ⟨hns, hlt⟩
    simpa using not_lt.mp hnlt

lemma runPipesFuel_inv (sp w bx : ℚ) :
    ∀ (n : ℕ) (l : List Pipe),
      (∀ p ∈ l, p.scored = false → bx ≤ p.x + w) →
      ∀ q ∈ runPipesFuel sp w bx n l, q.scored = false → bx ≤ q.x + w := by
  intro n
  induction n with
  | zero =>
      intro l hl q hq
      exact hl q hq
  | succ n ih =>
      intro l hl q hq hqs
      cases l with
      | nil => simp [runPipesFuel] at hq
      | cons p rest =>
          simp only [runPipesFuel] at hq
          by_cases hrem : (stepPipe sp w bx p).x + w < 0
          · rw [if_pos hrem] at hq
            cases rest with
            | nil => simp at hq
            | cons q2 rest2 =>
                cases List.mem_cons.mp hq with
                | inl h =>
                    subst h
                    exact hl q (by simp) hqs
                | inr h =>
                    exact ih rest2
                      (fun p2 hp2 => hl p2 (by simp [hp2])) q h hqs
          · rw [if_neg hrem] at hq
            cases List.mem_cons.mp hq with
            | inl h =>
                subst h
                exact stepPipe_unscored sp w bx p hqs
            | inr h =>
                exact ih rest
                  (fun p2 hp2 => hl p2 (List.mem_cons_of_mem p hp2)) q h hqs

lemma updatePipes_inv (g : Game) (hInv : PipesInv g)
    (hbw : g.bird.x ≤ g.canvasW + g.pipeWidth) :
    PipesInv (updatePipes g) := by
  intro q hq hqs
  rw [updatePipes_bird, updatePipes_pipeWidth]
  by_cases hg : g.gameState = GameState.playing
  · cases updatePipes_pipes g hg with
    | inl hsp =>
        obtain ⟨r, hr⟩ := hsp
        rw [hr] at hq
        refine runPipesFuel_inv g.pipeSpeed g.pipeWidth g.bird.x
          (g.pipes.length + 1) (g.pipes ++ [spawnedPipe g r]) ?_ q hq hqs
        intro p hp hps
        cases List.mem_append.mp hp with
        | inl h => exact hInv p h hps
        | inr h =>
            have : p = spawnedPipe g r := by simpa using h
            subst this
            simpa [spawnedPipe] using hbw
    | inr hns =>
        rw [hns] at hq
        exact runPipesFuel_inv g.pipeSpeed g.pipeWidth g.bird.x
          g.pipes.length g.pipes hInv q hq hqs
  · rw [updatePipes_not_playing g hg] at hq
    exact hInv q hq hqs

/-- A fixed random oracle used for concrete runs. -/
def rHalf : ℕ → ℚ := fun _ => 1/2

/-- A fresh instance on a 400 by 600 canvas with no stored best score. -/
def baseGame : Game := initGame none 400 600 rHalf

/-- Concrete Playing state with an active Shield and the bird about to
cross the ground line (`groundY = 488`). -/
def shieldCrash : Game :=
  { baseGame with gameState := GameState.playing,
                  activePowerUps := [PowerKind.shield],
                  bird := { baseGame.bird with y := 500 } }

/-- C1. The claim says an active Shield absorbs a fatal collision (no
GameOver) and is removed from the active effect set. The code has no such
path: `updateBird` and `updatePipes` call `gameOver()` without consulting
`activePowerUps`, and nothing ever removes the shield kind. At the
concrete input `shieldCrash` (Playing, Shield active, bird crossing the
ground line) the tick transitions to GameOver and the Shield stays in the
active effect set — contradicting the spec, which is the evident intent
(the code tracks, displays and renders the shield but never consumes it). -/
theorem C1_shield_never_absorbs :
    shieldCrash.gameState = GameState.playing ∧
    PowerKind.shield ∈ shieldCrash.activePowerUps ∧
    shieldCrash.bird.y + shieldCrash.bird.height > shieldCrash.groundY ∧
    (updateBird shieldCrash).gameState = GameState.gameOver ∧
    (updateBird shieldCrash).activePowerUps = [PowerKind.shield] := by
  decide

/-- Concrete Playing state in which this tick collects a SlowTime pickup
(one already-scored pipe keeps the spawner quiet). -/
def collectTick : Game :=
  { baseGame with gameState := GameState.playing,
                  pipes := [{ x := 300, y := 200, scored := true }],
                  powerUps := [{ x := 92, y := 300, kind := PowerKind.slowTime,
                                 duration := 300, collected := false }] }

/-- C2. On collection the kind is indeed added to the active effect set,
but with no remaining duration: `activePowerUps` is a plain set of kinds
(`this.activePowerUps.add(powerUp.type)`), the pickup's `duration: 300`
field is never read, and no tick ever decrements or removes an active
effect. At `collectTick`, the first tick collects SlowTime; the second
tick is a Playing tick and the active effect set is completely
unchanged — no decrement, no expiry — contradicting the spec, whose
intent the dead `duration` field records. -/
theorem C2_no_duration_countdown :
    (update collectTick).activePowerUps = [PowerKind.slowTime] ∧
    (update collectTick).powerUps.map PowerUp.collected = [true] ∧
    (update (update collectTick)).gameState = GameState.playing ∧
    (update (update collectTick)).activePowerUps = [PowerKind.slowTime] := by
  decide

/-- Concrete GameOver state reached with score 17 at difficulty 2, about
to be restarted. -/
def endedRun : Game :=
  { baseGame with gameState := GameState.gameOver, score := 17,
                  difficulty := 2, pipeSpeed := 3, pipeGap := 130 }

/-- C3. `startGame()` resets the score to 0 but not `difficulty` (nor the
derived speed and gap), and `updateDifficulty` only ever raises the level.
So in a run begun by `restart()` after a previous run reached difficulty
2, the invariant `difficulty = floor(score / 10) + 1` is violated from the
first tick on: score is 0, `floor(0 / 10) + 1 = 1`, but the difficulty
stays 2 — contradicting the code's own recomputation formula, which
yields 1 at score 0. -/
theorem C3_difficulty_not_reset_on_restart :
    (startGame endedRun).score = 0 ∧
    (startGame endedRun).difficulty = 2 ∧
    (startGame endedRun).score / 10 + 1 = 1 ∧
    (updateDifficulty (startGame endedRun)).difficulty = 2 := by
  decide

/-- Concrete GameOver state reached with score 23 at difficulty 3. -/
def endedRun2 : Game :=
  { baseGame with gameState := GameState.gameOver, score := 23,
                  difficulty := 3, pipeSpeed := 7/2, pipeGap := 125 }

/-- C4. `startGame()` does enter Playing and reset the bird position and
velocity, the pipe list and the score, and `restartGame()` is literally
`startGame()`; but it does not reset the difficulty to its initial value
1 — at `endedRun2` the difficulty stays 3 after the call. -/
theorem C4_start_omits_difficulty_reset :
    (startGame endedRun2).gameState = GameState.playing ∧
    (startGame endedRun2).bird.y = 300 ∧
    (startGame endedRun2).bird.velocity = 0 ∧
    (startGame endedRun2).pipes = [] ∧
    (startGame endedRun2).score = 0 ∧
    (startGame endedRun2).difficulty = 3 ∧
    ¬(startGame endedRun2).difficulty = 1 ∧
    restartGame endedRun2 = startGame endedRun2 := by
  exact ⟨by decide, by decide, by decide, by decide, by decide, by decide,
    by decide, rfl⟩

/-- C6 counterexample. The `flap()` method itself carries no state guard:
invoked on the fresh Start-state instance it overwrites the velocity with
the jump impulse and emits ten particles, so the claim as stated (about
invoking `flap()`) is false. -/
theorem C6_flap_method_not_guarded :
    baseGame.gameState = GameState.start ∧
    ¬((flap baseGame).bird.velocity = baseGame.bird.velocity ∧
      (flap baseGame).particles = baseGame.particles) ∧
    (flap baseGame).bird.velocity = -12 ∧
    baseGame.bird.velocity = 0 ∧
    (flap baseGame).particles.length = 10 := by
  decide

/-- C6 (amended). The state guard lives at the command surface: both input
listeners (Space keydown and canvas click) invoke `flap()` only while
`gameState === 'playing'`, so the flap command received while not Playing
leaves the whole state — in particular velocity and particles —
unchanged. -/
theorem C6_flap_command_noop (g : Game) (h : g.gameState ≠ GameState.playing) :
    flapInput g = g ∧
    (flapInput g).bird.velocity = g.bird.velocity ∧
    (flapInput g).particles = g.particles := by
  unfold flapInput
  rw [if_neg h]
  exact ⟨rfl, rfl, rfl⟩

/-- C6 witness: the guarded command is a no-op on the Start-state
instance. -/
theorem C6_flap_command_noop_witness :
    baseGame.gameState ≠ GameState.playing ∧
    (flapInput baseGame = baseGame ∧
     (flapInput baseGame).bird.velocity = baseGame.bird.velocity ∧
     (flapInput baseGame).particles = baseGame.particles) :=
  ⟨by decide, C6_flap_command_noop baseGame (by decide)⟩

/-- C7. The gap-top sample `r * (groundY - pipeGap - 200) + 100` lies, for
every draw `r` in `[0, 1)` of the random source and whenever the playable
band is at least `pipeGap + 200` tall (true of the game's canvas, whose
`groundY` is its height minus 112), at least 100 below the ceiling and at
least 100 above the ground with the whole gap: no clamping failure is
possible. The last conjunct records that this is exactly the sample used
for every spawned pipe. -/
theorem C7_gap_in_band (groundY gap r : ℚ) (hr0 : 0 ≤ r) (hr1 : r < 1)
    (hband : gap + 200 ≤ groundY) :
    100 ≤ spawnPipeY groundY gap r ∧
    spawnPipeY groundY gap r + gap ≤ groundY - 100 ∧
    0 < spawnPipeY groundY gap r ∧
    spawnPipeY groundY gap r + gap < groundY ∧
    ∀ (g : Game) (r2 : ℚ),
      (spawnedPipe g r2).y = spawnPipeY g.groundY g.pipeGap r2 := by
  have hM : 0 ≤ groundY - gap - 200 := by linarith
  have h1 : 0 ≤ r * (groundY - gap - 200) := mul_nonneg hr0 hM
  have h2 : r * (groundY - gap - 200) ≤ groundY - gap - 200 :=
    mul_le_of_le_one_left hM hr1.le
  unfold spawnPipeY
  refine ⟨by linarith, by linarith, by linarith, by linarith, ?_⟩
  intro g r2
  rfl

/-- C7 witness at the game's constants: 600-high canvas (`groundY = 488`),
initial gap 140, median draw. -/
theorem C7_gap_in_band_witness :
    ((0 : ℚ) ≤ 1/2 ∧ (1/2 : ℚ) < 1 ∧ (140 : ℚ) + 200 ≤ 488) ∧
    (100 ≤ spawnPipeY 488 140 (1/2) ∧
     spawnPipeY 488 140 (1/2) + 140 ≤ 488 - 100 ∧
     0 < spawnPipeY 488 140 (1/2) ∧
     spawnPipeY 488 140 (1/2) + 140 < 488 ∧
     ∀ (g : Game) (r2 : ℚ),
       (spawnedPipe g r2).y = spawnPipeY g.groundY g.pipeGap r2) :=
  ⟨⟨by norm_num, by norm_num, by norm_num⟩,
   C7_gap_in_band 488 140 (1/2) (by norm_num) (by norm_num) (by norm_num)⟩

/-- C9 counterexample. A malformed persisted best score is not treated as
0: `localStorage.getItem(...) || 0` keeps any non-empty string, so with
stored value "abc" the best score used by the core is the raw string,
whose numeric value is NaN — not the number 0 the claim requires. -/
theorem C9_malformed_not_zero :
    (initGame (some "abc") 400 600 rHalf).bestScore ≠ JSVal.num 0 ∧
    (initGame (some "abc") 400 600 rHalf).bestScore = JSVal.str "abc" ∧
    jsToNumber (initGame (some "abc") 400 600 rHalf).bestScore = none := by
  decide

/-- C9 (amended). A missing or empty stored best score defaults to the
number 0 and reading is never fatal; a malformed non-empty stored string
is kept verbatim as the best score, every numeric comparison against it
fails, so it is never considered exceeded and the stored value is never
overwritten; in general `gameOver()` writes the best score back exactly
when the current score numerically exceeds the held best value. -/
theorem C9_best_score_policy (g : Game) (cw ch : ℚ) (r : ℕ → ℚ)
    (hmal : jsToNumber g.bestScore = none) :
    (initGame none cw ch r).bestScore = JSVal.num 0 ∧
    (initGame (some "") cw ch r).bestScore = JSVal.num 0 ∧
    (gameOver g).storage = g.storage ∧
    (gameOver g).bestScore = g.bestScore ∧
    ∀ g2 : Game, (gameOver g2).storage =
      if scoreExceedsBest g2.score g2.bestScore then some (toString g2.score)
      else g2.storage := by
  refine ⟨rfl, by simp [initGame, jsOrZero], ?_, ?_, ?_⟩
  · simp [gameOver, scoreExceedsBest, hmal]
  · simp [gameOver, scoreExceedsBest, hmal]
  · intro g2
    unfold gameOver
    by_cases hx : scoreExceedsBest g2.score g2.bestScore <;> simp [hx]

/-- C9 witness: a concrete malformed stored value. -/
theorem C9_best_score_policy_witness :
    jsToNumber (JSVal.str "xyz") = none ∧
    ((initGame none 400 600 rHalf).bestScore = JSVal.num 0 ∧
     (initGame (some "") 400 600 rHalf).bestScore = JSVal.num 0 ∧
     (gameOver { baseGame with bestScore := JSVal.str "xyz" }).storage =
       ({ baseGame with bestScore := JSVal.str "xyz" } : Game).storage ∧
     (gameOver { baseGame with bestScore := JSVal.str "xyz" }).bestScore =
       ({ baseGame with bestScore := JSVal.str "xyz" } : Game).bestScore ∧
     ∀ g2 : Game, (gameOver g2).storage =
       if scoreExceedsBest g2.score g2.bestScore then some (toString g2.score)
       else g2.storage) :=
  ⟨by decide,
   C9_best_score_policy { baseGame with bestScore := JSVal.str "xyz" }
     400 600 rHalf (by decide)⟩

/-- C5. Per-tick form of the scored-flag contract of `updatePipes`, under
the invariant `PipesInv` (every unscored pipe's right edge at or right of
the actor; trivially true at run start where the pipe list is empty) and
the geometric fact that the actor is left of the spawn edge. First
conjunct: every pipe after the tick descends from exactly one input pipe
(possibly skipped unchanged by the splice semantics) or is freshly
spawned unscored. Second: the per-pipe transformation moves the pipe by
the speed, keeps `y`, and its flag is on afterwards exactly when it was
already on or the moved right edge is strictly left of the actor — so a
set flag never reverts and each pipe flips at most once. Third: the
invariant is preserved, hence a flip happens precisely at the first tick
whose movement carries the right edge past the actor. Fourth: the loop
body increments the score exactly at that flip, by the current point
value. -/
theorem C5_scored_exactly_once (g : Game) (hInv : PipesInv g)
    (hbw : g.bird.x ≤ g.canvasW + g.pipeWidth) :
    (∀ q ∈ (updatePipes g).pipes,
        (∃ p ∈ g.pipes,
          q = stepPipe g.pipeSpeed g.pipeWidth g.bird.x p ∨ q = p) ∨
        (∃ r, q = stepPipe g.pipeSpeed g.pipeWidth g.bird.x (spawnedPipe g r) ∨
          q = spawnedPipe g r)) ∧
    (∀ (sp w bx : ℚ) (p : Pipe),
        ((stepPipe sp w bx p).scored = true ↔
          (p.scored = true ∨ p.x - sp + w < bx)) ∧
        (stepPipe sp w bx p).x = p.x - sp ∧
        (stepPipe sp w bx p).y = p.y) ∧
    PipesInv (updatePipes g) ∧
    (∀ (g2 : Game) (k : ℕ) (p : Pipe), g2.pipes[k]? = some p →
        (pipeBody g2 k).score =
          if p.scored = false ∧ p.x - g2.pipeSpeed + g2.pipeWidth < g2.bird.x
          then g2.score + scorePoints g2 else g2.score) := by
  refine ⟨?_, stepPipe_spec, updatePipes_inv g hInv hbw,
    fun g2 k p h => pipeBody_some_score g2 k p h⟩
  intro q hq
  by_cases hg : g.gameState = GameState.playing
  · cases updatePipes_pipes g hg with
    | inl hsp =>
        obtain ⟨r, hr⟩ := hsp
        rw [hr] at hq
        obtain ⟨p, hp, hrel⟩ := runPipesFuel_mem _ _ _ _ _ q hq
        cases List.mem_append.mp hp with
        | inl h => exact Or.inl ⟨p, h, hrel⟩
        | inr h =>
            have hps : p = spawnedPipe g r := by simpa using h
            subst hps
            exact Or.inr ⟨r, hrel⟩
    | inr hns =>
        rw [hns] at hq
        obtain ⟨p, hp, hrel⟩ := runPipesFuel_mem _ _ _ _ _ q hq
        exact Or.inl ⟨p, hp, hrel⟩
  · rw [updatePipes_not_playing g hg] at hq
    exact Or.inl ⟨q, hq, Or.inr rfl⟩

/-- Concrete mid-run Playing state: one unscored pipe approaching the
actor and one scored pipe behind it. -/
def scoredRun : Game :=
  { baseGame with gameState := GameState.playing,
                  pipes := [{ x := 300, y := 200, scored := false },
                            { x := 90, y := 150, scored := true }] }

/-- C5 witness at a concrete mid-run state. -/
theorem C5_scored_exactly_once_witness :
    (PipesInv scoredRun ∧
     scoredRun.bird.x ≤ scoredRun.canvasW + scoredRun.pipeWidth) ∧
    ((∀ q ∈ (updatePipes scoredRun).pipes,
        (∃ p ∈ scoredRun.pipes,
          q = stepPipe scoredRun.pipeSpeed scoredRun.pipeWidth
                scoredRun.bird.x p ∨ q = p) ∨
        (∃ r, q = stepPipe scoredRun.pipeSpeed scoredRun.pipeWidth
                scoredRun.bird.x (spawnedPipe scoredRun r) ∨
          q = spawnedPipe scoredRun r)) ∧
     (∀ (sp w bx : ℚ) (p : Pipe),
        ((stepPipe sp w bx p).scored = true ↔
          (p.scored = true ∨ p.x - sp + w < bx)) ∧
        (stepPipe sp w bx p).x = p.x - sp ∧
        (stepPipe sp w bx p).y = p.y) ∧
     PipesInv (updatePipes scoredRun) ∧
     (∀ (g2 : Game) (k : ℕ) (p : Pipe), g2.pipes[k]? = some p →
        (pipeBody g2 k).score =
          if p.scored = false ∧ p.x - g2.pipeSpeed + g2.pipeWidth < g2.bird.x
          then g2.score + scorePoints g2 else g2.score)) :=
  ⟨⟨by unfold PipesInv; decide, by decide⟩,
   C5_scored_exactly_once scoredRun (by unfold PipesInv; decide) (by decide)⟩

/-- C8. The tick pipeline is, definitionally, bird (ground/ceiling) →
pipes (obstacle collisions) → clouds → ground → power-ups (pickups) →
particles → difficulty; and when the bird/pipes phases end in GameOver,
the power-up phase is skipped by its state guard, so no pickup is
collected and no effect is added later in that tick: the power-up list
and the active effect set leave the tick exactly as they entered it. -/
theorem C8_fatal_blocks_pickups (g : Game)
    (hfatal : (updatePipes (updateBird g)).gameState = GameState.gameOver) :
    update g =
      updateDifficulty (updateParticles (updatePowerUps (updateGround
        (updateClouds (updatePipes (updateBird g)))))) ∧
    (update g).powerUps = g.powerUps ∧
    (update g).activePowerUps = g.activePowerUps := by
  have h3 : updatePowerUps (updateGround (updateClouds (updatePipes
        (updateBird g)))) =
      updateGround (updateClouds (updatePipes (updateBird g))) :=
    updatePowerUps_not_playing _
      (by rw [updateGround_gameState, updateClouds_gameState, hfatal]; simp)
  refine ⟨rfl, ?_, ?_⟩
  · simp only [update, h3, updateDifficulty_powerUps,
      updateParticles_powerUps, updateGround_powerUps, updateClouds_powerUps,
      updatePipes_powerUps, updateBird_powerUps]
  · simp only [update, h3, updateDifficulty_activePowerUps,
      updateParticles_activePowerUps, updateGround_activePowerUps,
      updateClouds_activePowerUps, updatePipes_activePowerUps,
      updateBird_activePowerUps]

/-- Concrete Playing state whose tick is fatal (ground contact), with an
uncollected power-up overlapping the bird that would otherwise have been
picked up. -/
def fatalTick : Game :=
  { baseGame with gameState := GameState.playing,
                  bird := { baseGame.bird with y := 480 },
                  powerUps := [{ x := 92, y := 480, kind := PowerKind.shield,
                                 duration := 300, collected := false }] }

/-- C8 witness: the fatal tick leaves the power-up uncollected and the
effect set empty. -/
theorem C8_fatal_blocks_pickups_witness :
    (updatePipes (updateBird fatalTick)).gameState = GameState.gameOver ∧
    (update fatalTick =
       updateDifficulty (updateParticles (updatePowerUps (updateGround
         (updateClouds (updatePipes (updateBird fatalTick)))))) ∧
     (update fatalTick).powerUps = fatalTick.powerUps ∧
     (update fatalTick).activePowerUps = fatalTick.activePowerUps) :=
  ⟨by decide, C8_fatal_blocks_pickups fatalTick (by decide)⟩

/-- C10. `startGame()` (and so `restartGame()`, which is the same
function) rewrites only the state, score, bird pose and pipe list: the
power-up list, the active effect set and the particle list are untouched,
so uncollected pickups, running effects and live particles all survive
into the new run. -/
theorem C10_start_preserves_collections (g : Game) :
    (startGame g).powerUps = g.powerUps ∧
    (startGame g).activePowerUps = g.activePowerUps ∧
    (startGame g).particles = g.particles ∧
    restartGame g = startGame g :=
  ⟨rfl, rfl, rfl, rfl⟩

end FlappyBird
